import Mathlib

/-!
Verification of the Spanish identity-document validator
(`src/validar_documento.py`, class `DocumentoIdentidadValidator`).

The Python code is shallowly embedded here.  A Python `str` is modelled as
a `List Char` (a sequence of Unicode scalar values, matching CPython
semantics where iteration and slicing are by code point).  A Python
expression that may raise an exception is modelled in `Option`, with
`none` standing for the raised exception.

The two compiled regular expressions

  `re.compile(r'^\d{8}[A-Z]$')`   and   `re.compile(r'^[XYZ]\d{7}[A-Z]$')`

are used only through `.match(doc)`, which anchors the match at the start
of the string.  Python `re` semantics that matter here and are modelled
faithfully:

  * `\d` matches any character of Unicode general category Nd (the
    default for `str` patterns is `re.UNICODE`), not just ASCII digits;
  * `$` matches at the very end of the string, or just before a single
    newline that ends the string;
  * `[A-Z]` and `[XYZ]` are literal ASCII character classes.

`int(s)` on the strings this program can ever pass to it (strings made
only of category-Nd digits, ASCII uppercase letters and `\x27\n\x27`)
succeeds exactly when the string is nonempty and all of its characters
are Nd digits, producing the base-10 value of their decimal digit
values; otherwise it raises `ValueError`.  `pyInt` below models exactly
that behaviour.
-/

/-- Start code points of the 66 decade-aligned runs that make up the
Unicode general category Nd (Unicode 14.0, as shipped with CPython 3.11);
for every start `s`, the code points `s .. s+9` are the digits `0 .. 9`. -/
def ndStarts : List Nat :=
  [0x30, 0x660, 0x6f0, 0x7c0, 0x966, 0x9e6, 0xa66, 0xae6, 0xb66, 0xbe6,
   0xc66, 0xce6, 0xd66, 0xde6, 0xe50, 0xed0, 0xf20, 0x1040, 0x1090, 0x17e0,
   0x1810, 0x1946, 0x19d0, 0x1a80, 0x1a90, 0x1b50, 0x1bb0, 0x1c40, 0x1c50, 0xa620,
   0xa8d0, 0xa900, 0xa9d0, 0xa9f0, 0xaa50, 0xabf0, 0xff10, 0x104a0, 0x10d30, 0x11066,
   0x110f0, 0x11136, 0x111d0, 0x112f0, 0x11450, 0x114d0, 0x11650, 0x116c0, 0x11730, 0x118e0,
   0x11950, 0x11c50, 0x11d50, 0x11da0, 0x16a60, 0x16ac0, 0x16b50, 0x1d7ce, 0x1d7d8, 0x1d7e2,
   0x1d7ec, 0x1d7f6, 0x1e140, 0x1e2f0, 0x1e950, 0x1fbf0]

/-- Model of the Python regex class `\d` on a `str`: membership of
`c` in Unicode general category Nd. -/
def isNd (c : Char) : Bool :=
  ndStarts.any (fun s => s ≤ c.toNat && c.toNat ≤ s + 9)

/-- The decimal digit value (0–9) of a category-Nd character, as used by
Python `int` when parsing; 0 for characters outside Nd (never reached on
Nd input). -/
def ndVal (c : Char) : Nat :=
  match ndStarts.find? (fun s => s ≤ c.toNat && c.toNat ≤ s + 9) with
  | some s => c.toNat - s
  | none => 0

/-- The Python regex class `[A-Z]`: one ASCII uppercase letter. -/
def isUpperAZ (c : Char) : Bool :=
  65 ≤ c.toNat && c.toNat ≤ 90

/-- The Python regex class `[XYZ]`. -/
def isXYZ (c : Char) : Bool :=
  c == 'X' || c == 'Y' || c == 'Z'

/-- Python `$` (without `re.MULTILINE`), tested at the position where
`rest` is the remainder of the string: it matches at the very end, or
just before a newline that ends the string. -/
def dollarMatches (rest : List Char) : Bool :=
  rest == [] || rest == ['\n']

/-- Truth of `self.pattern_nif.match(doc)`: does the compiled pattern
of 8 digits and an uppercase letter match at the start of `doc`? -/
def pattern_nif_match (doc : List Char) : Bool :=
  match doc with
  | d1 :: d2 :: d3 :: d4 :: d5 :: d6 :: d7 :: d8 :: l :: rest =>
      isNd d1 && isNd d2 && isNd d3 && isNd d4 && isNd d5 && isNd d6 &&
      isNd d7 && isNd d8 && isUpperAZ l && dollarMatches rest
  | _ => false

/-- Truth of `self.pattern_nie.match(doc)`: does the compiled pattern
of X, Y or Z, then 7 digits and an uppercase letter match at the start
of `doc`? -/
def pattern_nie_match (doc : List Char) : Bool :=
  match doc with
  | x :: d1 :: d2 :: d3 :: d4 :: d5 :: d6 :: d7 :: l :: rest =>
      isXYZ x && isNd d1 && isNd d2 && isNd d3 && isNd d4 && isNd d5 &&
      isNd d6 && isNd d7 && isUpperAZ l && dollarMatches rest
  | _ => false

/-- Embedding of `DocumentoIdentidadValidator.identificar_documento`. -/
def identificar_documento (doc : List Char) : String :=
  if pattern_nif_match doc then "NIF"
  else if pattern_nie_match doc then "NIE"
  else "Desconocido"

/-- Embedding of `DocumentoIdentidadValidator.validar_formato`. -/
def validar_formato (doc : List Char) : Bool :=
  pattern_nif_match doc || pattern_nie_match doc

/-- Embedding of `DocumentoIdentidadValidator.LETRAS_NIF`, the modulo-23
control-letter table. -/
def LETRAS_NIF : List Char :=
  "TRWAGMYFPDXBNJZSQVHLCKE".toList

/-- Embedding of `DocumentoIdentidadValidator.calcular_letra_nif`:
`self.LETRAS_NIF[numero % 23]`.  Python `%` on a positive modulus equals
`Int.emod`; `List.get?` returning `none` models the (unreachable)
`IndexError` of out-of-range indexing. -/
def calcular_letra_nif (numero : Int) : Option Char :=
  LETRAS_NIF.get? (numero % 23).toNat

/-- Python `int(s)` restricted to the strings reachable in this program
(characters drawn from Nd digits, ASCII uppercase letters and `\x27\n\x27`):
it succeeds exactly on nonempty all-Nd strings, with base-10 value built
from the decimal digit values; `none` models the `ValueError`. -/
def pyInt (s : List Char) : Option Int :=
  if s ≠ [] ∧ s.all isNd then
    some (s.foldl (fun a c => a * 10 + (ndVal c : Int)) 0)
  else none

/-- Embedding of the dict `conversion` mapping X to "0", Y to "1" and
Z to "2"; `none` models the `KeyError` of a missing key. -/
def conversion (c : Char) : Option Char :=
  if c = 'X' then some '0'
  else if c = 'Y' then some '1'
  else if c = 'Z' then some '2'
  else none

/-- Embedding of `DocumentoIdentidadValidator.validar_letra`.  `doc.dropLast` is
Python `doc[:-1]`, `doc.head?` is `doc[0]`, `(doc.drop 1).dropLast` is
`doc[1:-1]`, `doc.getLast?` is `doc[-1]`; `none` is an uncaught
exception. -/
def validar_letra (doc : List Char) : Option Bool :=
  let tipo := identificar_documento doc
  if tipo = "NIF" then do
    let numero ← pyInt doc.dropLast
    let letra_correcta ← calcular_letra_nif numero
    let ultimo ← doc.getLast?
    pure (ultimo == letra_correcta)
  else if tipo = "NIE" then do
    let inicial ← doc.head?
    let digito ← conversion inicial
    let numero ← pyInt (digito :: (doc.drop 1).dropLast)
    let letra_correcta ← calcular_letra_nif numero
    let ultimo ← doc.getLast?
    pure (ultimo == letra_correcta)
  else
    some false

/-- Embedding of `DocumentoIdentidadValidator.validar_documento`.  The three f-string
messages are reproduced verbatim; `none` is an uncaught exception.  The
Python `and` is short-circuiting, so `validar_letra` only runs when
`validar_formato` is true. -/
def validar_documento (doc : List Char) : Option String :=
  let tipo := identificar_documento doc
  if tipo = "Desconocido" then
    some ("El documento \x27" ++ String.mk doc ++ "\x27 tiene un formato inválido.")
  else
    if validar_formato doc then do
      let letraOk ← validar_letra doc
      if letraOk then
        pure ("El documento \x27" ++ String.mk doc ++ "\x27 es un " ++ tipo ++ " válido.")
      else
        pure ("El documento \x27" ++ String.mk doc ++ "\x27 es un " ++ tipo ++ " inválido.")
    else
      some ("El documento \x27" ++ String.mk doc ++ "\x27 es un " ++ tipo ++ " inválido.")

/-- The same classifier with the two patterns tried in the opposite
order, used to state that `identificar_documento` does not depend on the
order in which the patterns are tried. -/
def identificar_documento_nie_first (doc : List Char) : String :=
  if pattern_nie_match doc then "NIE"
  else if pattern_nif_match doc then "NIF"
  else "Desconocido"

/-- Helper: a character in the class `[XYZ]` is not a decimal digit, so
the first character separates the two document patterns. -/
theorem isNd_eq_false_of_isXYZ (c : Char) (h : isXYZ c = true) :
    isNd c = false := by
  simp only [isXYZ, Bool.or_eq_true, beq_iff_eq] at h
  rcases h with (h | h) | h <;> subst h <;> decide

/-- Helper: the NIF pattern and the NIE pattern never match the same
string. -/
theorem patterns_exclusive (doc : List Char) :
    (pattern_nif_match doc && pattern_nie_match doc) = false := by
  rcases doc with _ | ⟨c, _ | ⟨d1, _ | ⟨d2, _ | ⟨d3, _ | ⟨d4, _ | ⟨d5, _ | ⟨d6, _ | ⟨d7, _ | ⟨l, rest⟩⟩⟩⟩⟩⟩⟩⟩⟩
  all_goals try rfl
  cases hx : isXYZ c
  · simp [pattern_nif_match, pattern_nie_match, hx]
  · have hnd := isNd_eq_false_of_isXYZ c hx
    simp [pattern_nif_match, pattern_nie_match, hnd]

/-- C1: the claim that `identificar_documento` returns NIF exactly for
strings of 8 ASCII digits and 1 uppercase ASCII letter (total length 9,
anchored at both ends) fails on the code: Python `$` also matches just
before a trailing newline, so the 10-character string "12345678Z\n" is
classified NIF, and `\d` also matches non-ASCII decimal digits, so a
string starting with the Arabic-Indic digit one (U+0661) is classified
NIF as well. -/
theorem c1_classify_exceeds_claimed_language :
    identificar_documento ("12345678Z\n").toList = "NIF" ∧
    ("12345678Z\n").toList.length = 10 ∧
    identificar_documento (Char.ofNat 0x661 :: ("2345678A").toList) = "NIF" :=
  ⟨rfl, rfl, rfl⟩

/-- C2: the claim that `validar_documento` is a total, exception-free
function fails on the code: "00000000T\n" is classified NIF (trailing
newline accepted by `$`), but then `int(doc[:-1])` receives the
non-numeric string "00000000T" and raises `ValueError` (`none` in the
embedding). -/
theorem c2_validate_raises_value_error :
    identificar_documento ("00000000T\n").toList = "NIF" ∧
    validar_documento ("00000000T\n").toList = none :=
  ⟨rfl, rfl⟩

/-- C3: for every non-negative integer `n`, `calcular_letra_nif` returns
exactly the character of the control-letter table at index `n % 23`; the
table has length exactly 23 (it is an immutable Lean constant, so no call
can mutate it), and the looked-up character always exists. -/
theorem c3_control_letter_table_lookup (n : Nat) :
    LETRAS_NIF.length = 23 ∧
    calcular_letra_nif (n : Int) = LETRAS_NIF.get? (n % 23) ∧
    ∃ c, LETRAS_NIF.get? (n % 23) = some c := by
  have hlen : LETRAS_NIF.length = 23 := by decide
  have hcast : (((n : Int)) % 23).toNat = n % 23 := by omega
  have hlt : n % 23 < LETRAS_NIF.length := by omega
  exact ⟨hlen, by rw [calcular_letra_nif, hcast],
    ⟨LETRAS_NIF.get ⟨n % 23, hlt⟩, List.get?_eq_get hlt⟩⟩

/-- C4: the claim that `validar_letra` returns, for every string
classified NIE, the comparison of the trailing letter with the control
letter of the substituted number fails on the code: "X1234567L\n" is
classified NIE (trailing newline accepted by `$`), but then
`int(conversion[doc[0]] + doc[1:-1])` receives "01234567L" and raises
`ValueError` instead of returning a boolean. -/
theorem c4_nie_letter_check_raises :
    identificar_documento ("X1234567L\n").toList = "NIE" ∧
    validar_letra ("X1234567L\n").toList = none :=
  ⟨rfl, rfl⟩

/-- C5: for every string whose classification is unknown
("Desconocido"), `validar_letra` returns false without any further
computation and without raising. -/
theorem c5_unknown_returns_false (doc : List Char)
    (h : identificar_documento doc = "Desconocido") :
    validar_letra doc = some false := by
  simp [validar_letra, h]

/-- Witness for C5 at the concrete input "HOLA". -/
theorem c5_unknown_returns_false_witness :
    identificar_documento ("HOLA").toList = "Desconocido" ∧
    validar_letra ("HOLA").toList = some false :=
  ⟨rfl, c5_unknown_returns_false ("HOLA").toList rfl⟩

/-- C6: the claim that the numeric parsing inside `validar_letra` cannot
fail once the format matched fails on the code: "11111111H\n" is
reported NIF by the format match, yet `int(doc[:-1])` receives
"11111111H" and raises `ValueError` (`pyInt` returns `none`), so a
parse-error path is reachable from input the format check accepted. -/
theorem c6_parse_error_reachable :
    identificar_documento ("11111111H\n").toList = "NIF" ∧
    pyInt (("11111111H\n").toList.dropLast) = none ∧
    validar_letra ("11111111H\n").toList = none :=
  ⟨rfl, rfl, rfl⟩

/-- C7: periodicity of the control letter: for every 8-digit value `n`
in [0, 99999999] and every integer `k` with `n + 23 * k` non-negative,
the control letter of `n` equals the control letter of `n + 23 * k`. -/
theorem c7_mod23_periodicity (n k : Int) (h0 : 0 ≤ n)
    (h1 : n ≤ 99999999) (h2 : 0 ≤ n + 23 * k) :
    calcular_letra_nif n = calcular_letra_nif (n + 23 * k) := by
  unfold calcular_letra_nif
  rw [Int.add_mul_emod_self_left]

/-- Witness for C7 at `n = 5`, `k = 4`. -/
theorem c7_mod23_periodicity_witness :
    (0 : Int) ≤ 5 ∧ (5 : Int) ≤ 99999999 ∧ (0 : Int) ≤ 5 + 23 * 4 ∧
    calcular_letra_nif 5 = calcular_letra_nif (5 + 23 * 4) :=
  ⟨by decide, by decide, by decide,
    c7_mod23_periodicity 5 4 (by decide) (by decide) (by decide)⟩

/-- C8: `validar_documento` on "12345678Z" reports a valid NIF, because
12345678 % 23 = 14 and the control-letter table at index 14 is Z. -/
theorem c8_example_valid_nif :
    validar_documento ("12345678Z").toList =
      some ("El documento \x2712345678Z\x27 es un NIF válido.") ∧
    (12345678 : Int) % 23 = 14 ∧
    LETRAS_NIF.get? 14 = some 'Z' :=
  ⟨rfl, by decide, rfl⟩

/-- C9: the NIF and NIE patterns are mutually exclusive (no string
matches both), hence `identificar_documento` gives the same result as
the variant that tries the NIE pattern first. -/
theorem c9_patterns_disjoint_order_irrelevant :
    (∀ doc : List Char, (pattern_nif_match doc && pattern_nie_match doc) = false) ∧
    (∀ doc : List Char, identificar_documento doc = identificar_documento_nie_first doc) := by
  refine ⟨patterns_exclusive, fun doc => ?_⟩
  have h := patterns_exclusive doc
  unfold identificar_documento identificar_documento_nie_first
  cases hn : pattern_nif_match doc <;> cases he : pattern_nie_match doc <;>
    simp_all

/-- C10: `calcular_letra_nif` is total on every integer, negatives
included: `n % 23` (Python semantics, i.e. `Int.emod`) always lies in
[0, 22], the lookup always succeeds, and the result is one of the 23
characters of the table. -/
theorem c10_total_on_all_integers (n : Int) :
    0 ≤ n % 23 ∧ n % 23 < 23 ∧
    ∃ c, calcular_letra_nif n = some c ∧ c ∈ LETRAS_NIF := by
  have h1 : 0 ≤ n % 23 := Int.emod_nonneg n (by decide)
  have h2 : n % 23 < 23 := Int.emod_lt_of_pos n (by decide)
  have hlen : LETRAS_NIF.length = 23 := by decide
  have hlt : (n % 23).toNat < LETRAS_NIF.length := by omega
  exact ⟨h1, h2, LETRAS_NIF.get ⟨(n % 23).toNat, hlt⟩,
    List.get?_eq_get hlt, List.get_mem _ _ _⟩
